import Mathlib

/-!
# Verification of the generative audio engine (src/lib/audioEngine.ts)

A shallow embedding of the generative audio engine: the Mulberry32 seeded
random generator, the BPM / genre / energy tier mappers, the deterministic
pattern generator, the sound-primitive library, the five genre arrangement
composers, and the playback scheduler state machine.

Modelling conventions:
* JavaScript numbers that stay integral are modelled as `ℤ`; the doubles
  produced by the engine are exact rationals (`ℚ`) except for the pitch
  frequencies `root * 2 ^ (k / 12)`, which are represented symbolically by
  `JSVal.note root k` together with a real-valued denotation, and for
  NaN / undefined, represented by `JSVal.nan` (for numbers) and `Option.none`
  (for the possibly-undefined root frequency).
* The bitwise steps of Mulberry32 are modelled on the 32-bit pattern of each
  intermediate value (a `ℕ` below `2 ^ 32`); JavaScript `ToInt32`/`ToUint32`
  both reduce the pattern mod `2 ^ 32`, and `^ | >>> Math.imul` act on
  patterns, so this is exact.  `next()` returns `u / 2 ^ 32` for the final
  pattern `u`; the comparisons and floors applied to it by `int`, `pick` and
  `chance` are computed exactly on `u` (the double products involved are
  exact because they need at most 35 bits of mantissa).
* The Web Audio objects are modelled by the observable engine state: whether
  the context and master gain exist, and the list of scheduled source nodes
  (kind, start/stop time, finished flag).  Gain envelopes and filter wiring
  have no effect on any engine field and are not represented.
-/

/-! ## Mulberry32 seeded random generator (class SeededRandom) -/

/-- `2 ^ 32`, the modulus of all JavaScript 32-bit bitwise operations. -/
def U32 : ℕ := 4294967296

/-- JavaScript `ToUint32` of an integral double: the 32-bit pattern. -/
def toU32 (x : ℤ) : ℕ := (x % (4294967296 : ℤ)).toNat

/-- One call of `SeededRandom.next()` (Mulberry32).  The stored seed is the
exact double `seed + 0x6D2B79F5` (no wrap: the engine draws at most a few
dozen values, keeping the seed far below `2 ^ 53`).  The returned `ℕ` is the
final `(t ^ t >>> 14) >>> 0`, so `next()` itself is that value over `2^32`. -/
def rngNext (seed : ℤ) : ℤ × ℕ :=
  let seed' := seed + 0x6D2B79F5
  let t1 := toU32 seed'
  let t2 := ((t1 ^^^ (t1 >>> 15)) * (t1 ||| 1)) % U32
  let t3 := t2 ^^^ ((t2 + (((t2 ^^^ (t2 >>> 7)) * (t2 ||| 61)) % U32)) % U32)
  (seed', t3 ^^^ (t3 >>> 14))

/-- `SeededRandom.int(min, max) = Math.floor(next() * (max - min + 1)) + min`.
The double product `u / 2^32 * (max - min + 1)` is exact for the small ranges
the engine uses, so the floor is integer division by `2 ^ 32`. -/
def rngInt (seed : ℤ) (min max : ℕ) : ℤ × ℕ :=
  let su := rngNext seed
  (su.1, su.2 * (max - min + 1) / U32 + min)

/-- `SeededRandom.pick(arr) = arr[Math.floor(next() * arr.length)]`.  The
computed index is always `< arr.length` (the output pattern is `< 2 ^ 32`),
so the default value `d` of the total lookup is never used. -/
def rngPick {α : Type} (seed : ℤ) (arr : List α) (d : α) : ℤ × α :=
  let su := rngNext seed
  (su.1, arr.getD (su.2 * arr.length / U32) d)

/-- `SeededRandom.chance(p) = next() < p`, compared against the IEEE double
value of the literal `p`.  `next()` is exactly `u / 2^32`, so the comparison
is `u < threshold` for the integer threshold `⌈p_double * 2^32⌉`. -/
def rngChance (seed : ℤ) (threshold : ℕ) : ℤ × Bool :=
  let su := rngNext seed
  (su.1, decide (su.2 < threshold))

/-- Threshold for `chance(0.7)`: the double `0.7` is
`6305039478318694 / 2^53`, and `u / 2^32` is below it iff `u ≤ 3006477107`. -/
def chance07T : ℕ := 3006477108

/-- Threshold for `chance(0.8)`: the double `0.8` is
`7205759403792794 / 2^53`, and `u / 2^32` is below it iff `u ≤ 3435973836`. -/
def chance08T : ℕ := 3435973837

/-! ## BPM, genre and energy tier mappers -/

/-- JavaScript `Math.round`: round half toward positive infinity. -/
def jsRound (q : ℚ) : ℤ := ⌊q + 1/2⌋

/-- `getBPMFromContributions`: tiered piecewise-linear BPM curve.  The tier
arithmetic is modelled exactly over `ℚ`; at every input relevant to the
claims the double computation is exact as well. -/
def getBPMFromContributions (contributions : ℤ) : ℤ :=
  if contributions ≤ 0 then 85
  else if contributions ≤ 200 then
    jsRound (85 + (contributions : ℚ) / 200 * 24)
  else if contributions ≤ 800 then
    jsRound (110 + ((contributions : ℚ) - 200) / 600 * 17)
  else if contributions ≤ 2000 then
    jsRound (128 + ((contributions : ℚ) - 800) / 1200 * 11)
  else if contributions ≤ 4000 then
    jsRound (140 + ((contributions : ℚ) - 2000) / 2000 * 14)
  else
    jsRound (155 + min (((contributions : ℚ) - 4000) / 4000) 1 * 25)

inductive MusicGenre : Type
  | chillout | techno | trance | hardstyle | hardcore
deriving DecidableEq

/-- `getGenreFromBPM`. -/
def getGenreFromBPM (bpm : ℤ) : MusicGenre :=
  if bpm < 110 then .chillout
  else if bpm < 128 then .techno
  else if bpm < 140 then .trance
  else if bpm < 155 then .hardstyle
  else .hardcore

inductive EnergyLevel : Type
  | lurker | casual | regular | active | dedicated | poweruser | machine | legend
deriving DecidableEq

/-- `getEnergyLevel`. -/
def getEnergyLevel (contributions : ℤ) : EnergyLevel :=
  if contributions < 100 then .lurker
  else if contributions < 300 then .casual
  else if contributions < 600 then .regular
  else if contributions < 1000 then .active
  else if contributions < 1500 then .dedicated
  else if contributions < 2500 then .poweruser
  else if contributions < 4000 then .machine
  else .legend

/-! ## Musical constants -/

inductive ScaleName : Type
  | minor | major | pentatonicMinor | pentatonicMajor | dorian | phrygian | harmonicMinor
deriving DecidableEq

/-- The `SCALES` catalog: semitone offsets from the root. -/
def SCALES : ScaleName → List ℕ
  | .minor => [0, 2, 3, 5, 7, 8, 10]
  | .major => [0, 2, 4, 5, 7, 9, 11]
  | .pentatonicMinor => [0, 3, 5, 7, 10]
  | .pentatonicMajor => [0, 2, 4, 7, 9]
  | .dorian => [0, 2, 3, 5, 7, 9, 10]
  | .phrygian => [0, 1, 3, 5, 7, 8, 10]
  | .harmonicMinor => [0, 2, 3, 5, 7, 8, 11]

/-- `ROOT_NOTES` in key insertion order (C, C#, D, D#, E, F, F#, G, G#, A,
A#, B), the order of `ROOT_NOTE_NAMES = Object.keys(ROOT_NOTES)`. -/
def ROOT_NOTES : List ℚ :=
  [130.81, 138.59, 146.83, 155.56, 164.81, 174.61, 185.00, 196.00,
   207.65, 220.00, 233.08, 246.94]

/-- `ROOT_NOTES[ROOT_NOTE_NAMES[i]]` for an arbitrary signed index `i`:
a negative index reads a missing property, i.e. `undefined` (`none`). -/
def rootNoteAt (i : ℤ) : Option ℚ :=
  if i < 0 then none else ROOT_NOTES.get? i.toNat

/-- The per-genre scale candidate lists (`genreScales`). -/
def genreScales : MusicGenre → List ScaleName
  | .chillout => [.pentatonicMajor, .major, .dorian]
  | .techno => [.minor, .dorian, .phrygian]
  | .trance => [.minor, .harmonicMinor, .dorian]
  | .hardstyle => [.phrygian, .harmonicMinor, .minor]
  | .hardcore => [.phrygian, .harmonicMinor, .minor]

/-! ## JavaScript number values produced by the generator -/

/-- A JavaScript number as it appears in the generated patterns: an exact
rational (`num`), a pitch frequency `r * 2 ^ (k / 12)` kept symbolically
(`note`), or NaN (`nan`, produced when the undefined root propagates). -/
inductive JSVal : Type
  | num (q : ℚ)
  | note (r : ℚ) (k : ℤ)
  | nan
deriving DecidableEq

/-- Real denotation of a generated value; `none` for NaN. -/
noncomputable def JSVal.toRealQ : JSVal → Option ℝ
  | .num q => some (q : ℝ)
  | .note r k => some ((r : ℝ) * (2 : ℝ) ^ ((k : ℝ) / 12))
  | .nan => none

/-- The JavaScript test `freq > 0` on a generated value (`NaN > 0` is
false). -/
def JSVal.gtZero : JSVal → Bool
  | .num q => decide (0 < q)
  | .note r _ => decide (0 < r)
  | .nan => false

/-- Doubling a generated value (`freq * 2`, used by the hardcore lead):
doubling a pitch raises it by 12 semitones. -/
def JSVal.double : JSVal → JSVal
  | .num q => .num (2 * q)
  | .note r k => .note r (k + 12)
  | .nan => .nan

/-! ## Deterministic pattern generator -/

/-- `getFrequency(degree, octave)`:
`rootFreq * 2 ^ ((scale[degree % scale.length] + octaveOffset * 12) / 12)`
with `octaveOffset = floor(degree / scale.length) + octave`.  An undefined
root or an out-of-range scale read makes the result NaN. -/
def getFrequency (root : Option ℚ) (scale : List ℕ) (degree octave : ℕ) : JSVal :=
  match scale.get? (degree % scale.length), root with
  | some semitone, some r =>
      .note r ((semitone : ℤ) + ((degree / scale.length : ℕ) + (octave : ℤ)) * 12)
  | _, _ => .nan

/-- The 16-step melody loop of `generateUniquePatterns`: with probability
0.7 a note (uniform scale degree, coin-flip octave, converted at
`octave + 1`), otherwise the rest value `0`. -/
def genMelody (root : Option ℚ) (scale : List ℕ) : ℕ → ℤ → ℤ × List JSVal
  | 0, seed => (seed, [])
  | n + 1, seed =>
      let c := rngChance seed chance07T
      if c.2 then
        let d := rngInt c.1 0 (scale.length - 1)
        let o := rngInt d.1 0 1
        let rest := genMelody root scale n o.1
        (rest.1, getFrequency root scale d.2 (o.2 + 1) :: rest.2)
      else
        let rest := genMelody root scale n c.1
        (rest.1, JSVal.num 0 :: rest.2)

/-- The 8-step bassline loop: a root-heavy degree drawn from
`[0, 0, 2, 3, 4, 5]`, converted at octave 0. -/
def genBassline (root : Option ℚ) (scale : List ℕ) : ℕ → ℤ → ℤ × List JSVal
  | 0, seed => (seed, [])
  | n + 1, seed =>
      let d := rngPick seed [0, 0, 2, 3, 4, 5] 0
      let rest := genBassline root scale n d.1
      (rest.1, getFrequency root scale d.2 0 :: rest.2)

/-- Result record of `generateUniquePatterns`: the five engine fields the
method assigns. -/
structure GenOut : Type where
  rngSeed : ℤ
  rootFreq : Option ℚ
  scale : List ℕ
  melody : List JSVal
  bassline : List JSVal
deriving DecidableEq

/-- `generateUniquePatterns`, as a function of the only engine field it
reads (`config.contributions`): reseed the generator, pick the root note by
`contributions % 12` (JavaScript `%`, sign of the dividend), pick a scale
from the genre candidates, then generate the melody and bassline. -/
def generateUniquePatterns (contributions : ℤ) : GenOut :=
  let rootFreq := rootNoteAt (contributions.tmod 12)
  let genre := getGenreFromBPM (getBPMFromContributions contributions)
  let p := rngPick contributions (genreScales genre) ScaleName.minor
  let scale := SCALES p.2
  let m := genMelody rootFreq scale 16 p.1
  let b := genBassline rootFreq scale 8 m.1
  { rngSeed := b.1, rootFreq := rootFreq, scale := scale,
    melody := m.2, bassline := b.2 }

/-! ## Engine state -/

/-- `AudioEngineConfig`. -/
structure AudioEngineConfig : Type where
  contributions : ℤ
  streakDays : ℤ
deriving DecidableEq

inductive OscType : Type
  | sine | square | sawtooth | triangle
deriving DecidableEq

inductive NodeKind : Type
  | osc | noise
deriving DecidableEq

/-- An `AudioScheduledSourceNode` as tracked in `scheduledNodes`: its kind,
the scheduled start/stop times, and whether the platform has already finished
playing it (an external, asynchronous event). -/
structure ScheduledNode : Type where
  kind : NodeKind
  startTime : ℚ
  stopTime : ℚ
  finished : Bool
deriving DecidableEq

/-- The mutable fields of `GenerativeAudioEngine`, plus `now`, the external
`audioContext.currentTime` read by the composers (its value never affects
any other field). -/
structure EngineState : Type where
  audioContextLive : Bool
  masterGainLive : Bool
  isPlaying : Bool
  isLoading : Bool
  scheduledNodes : List ScheduledNode
  loopTimeoutArmed : Bool
  config : AudioEngineConfig
  rngSeed : ℤ
  generatedMelody : List JSVal
  generatedBassline : List JSVal
  rootFreq : Option ℚ
  scale : List ℕ
  now : ℚ
deriving DecidableEq

/-- The constructor: `config = {contributions: 500, streakDays: 7}`,
`rng = new SeededRandom(500)`, and the field initializers.  Note that the
constructor does not call `generateUniquePatterns`. -/
def initState : EngineState where
  audioContextLive := false
  masterGainLive := false
  isPlaying := false
  isLoading := false
  scheduledNodes := []
  loopTimeoutArmed := false
  config := { contributions := 500, streakDays := 7 }
  rngSeed := 500
  generatedMelody := []
  generatedBassline := []
  rootFreq := some 130.81
  scale := SCALES .minor
  now := 0

/-- `generateUniquePatterns` as the state mutation performed by the method:
it reads only `config.contributions` and overwrites the five generation
fields. -/
def generateUniquePatternsS (s : EngineState) : EngineState :=
  let g := generateUniquePatterns s.config.contributions
  { s with rngSeed := g.rngSeed, rootFreq := g.rootFreq, scale := g.scale,
           generatedMelody := g.melody, generatedBassline := g.bassline }

/-- `updateConfig(partial)`: merge the two optional fields, then regenerate
only if a contributions value was supplied and differs from the old one. -/
def engineUpdateConfig (s : EngineState)
    (newContributions newStreakDays : Option ℤ) : EngineState :=
  let oldContributions := s.config.contributions
  let s1 := { s with config :=
    { contributions := newContributions.getD s.config.contributions,
      streakDays := newStreakDays.getD s.config.streakDays } }
  match newContributions with
  | some c => if c ≠ oldContributions then generateUniquePatternsS s1 else s1
  | none => s1

/-- `init()`: if a context already exists, return; otherwise claim the
output device and build the master gain / compressor chain (`isLoading` is
raised and lowered inside the call). -/
def engineInit (s : EngineState) : EngineState :=
  if s.audioContextLive then s
  else { s with audioContextLive := true, masterGainLive := true,
                isLoading := false }

/-- `this.rng.chance(p)` called on the engine (advances the stored seed). -/
def engineChance (s : EngineState) (threshold : ℕ) : EngineState × Bool :=
  let r := rngChance s.rngSeed threshold
  ({ s with rngSeed := r.1 }, r.2)

/-- `this.getFrequency(degree, octave)` reading the current scale and root. -/
def engineGetFrequency (s : EngineState) (degree octave : ℕ) : JSVal :=
  getFrequency s.rootFreq s.scale degree octave

/-- `this.generatedMelody[i]` / `this.generatedBassline[i]`: a JavaScript
array read, `undefined` (which the sound graph treats as NaN) out of
range. -/
def jsArrGet (l : List JSVal) (i : ℕ) : JSVal := (l.get? i).getD .nan

/-! ## Sound primitive library

Each primitive is a silent no-op unless both the audio context and the
master gain exist; otherwise it appends its source nodes (with their
scheduled start/stop times) to `scheduledNodes`.  The oscillators, gain
envelopes and filters configured inside the primitives touch no engine
field and are not otherwise represented. -/

/-- `createOscillator(freq, type, startTime, duration, volume, attack,
release)`: one oscillator, stopped at `startTime + duration + 0.05`. -/
def createOscillator (s : EngineState) (freq : JSVal) (type : OscType)
    (startTime duration volume attack release : ℚ) : EngineState :=
  if !s.audioContextLive || !s.masterGainLive then s
  else { s with scheduledNodes := s.scheduledNodes ++
    [{ kind := .osc, startTime := startTime,
       stopTime := startTime + duration + 0.05, finished := false }] }

/-- `createKick(startTime, volume, hard)`: a sine sweep (decay 0.15 hard,
0.25 soft), plus a distorted square layer stopped at `startTime + 0.15`
when `hard`. -/
def createKick (s : EngineState) (startTime volume : ℚ) (hard : Bool) :
    EngineState :=
  if !s.audioContextLive || !s.masterGainLive then s
  else
    let decayTime : ℚ := if hard then 0.15 else 0.25
    let s1 := { s with scheduledNodes := s.scheduledNodes ++
      [{ kind := .osc, startTime := startTime,
         stopTime := startTime + decayTime + 0.05, finished := false }] }
    if hard then
      { s1 with scheduledNodes := s1.scheduledNodes ++
        [{ kind := .osc, startTime := startTime,
           stopTime := startTime + 0.15, finished := false }] }
    else s1

/-- `createHiHat(startTime, volume, open)`: one filtered noise burst. -/
def createHiHat (s : EngineState) (startTime volume : ℚ) (open_ : Bool) :
    EngineState :=
  if !s.audioContextLive || !s.masterGainLive then s
  else
    let duration : ℚ := if open_ then 0.15 else 0.05
    { s with scheduledNodes := s.scheduledNodes ++
      [{ kind := .noise, startTime := startTime,
         stopTime := startTime + duration + 0.01, finished := false }] }

/-- `createSnare(startTime, volume)`: a noise burst and a dropping tone. -/
def createSnare (s : EngineState) (startTime volume : ℚ) : EngineState :=
  if !s.audioContextLive || !s.masterGainLive then s
  else { s with scheduledNodes := s.scheduledNodes ++
    [{ kind := .noise, startTime := startTime, stopTime := startTime + 0.15,
       finished := false },
     { kind := .osc, startTime := startTime, stopTime := startTime + 0.1,
       finished := false }] }

/-- `createBass(freq, startTime, duration, volume)`: two detuned
oscillators, both stopped at `startTime + duration`. -/
def createBass (s : EngineState) (freq : JSVal)
    (startTime duration volume : ℚ) : EngineState :=
  if !s.audioContextLive || !s.masterGainLive then s
  else { s with scheduledNodes := s.scheduledNodes ++
    [{ kind := .osc, startTime := startTime, stopTime := startTime + duration,
       finished := false },
     { kind := .osc, startTime := startTime, stopTime := startTime + duration,
       finished := false }] }

/-- `createPad(freq, startTime, duration, volume)`: five detuned layers,
each stopped at `startTime + duration + 0.1`. -/
def createPad (s : EngineState) (freq : JSVal)
    (startTime duration volume : ℚ) : EngineState :=
  if !s.audioContextLive || !s.masterGainLive then s
  else { s with scheduledNodes := s.scheduledNodes ++
    (List.replicate 5
      { kind := .osc, startTime := startTime,
        stopTime := startTime + duration + 0.1, finished := false }) }

/-- `createLead(freq, startTime, duration, volume)`: two detuned
oscillators, both stopped at `startTime + duration + 0.05`. -/
def createLead (s : EngineState) (freq : JSVal)
    (startTime duration volume : ℚ) : EngineState :=
  if !s.audioContextLive || !s.masterGainLive then s
  else { s with scheduledNodes := s.scheduledNodes ++
    [{ kind := .osc, startTime := startTime,
       stopTime := startTime + duration + 0.05, finished := false },
     { kind := .osc, startTime := startTime,
       stopTime := startTime + duration + 0.05, finished := false }] }

/-! ## Genre arrangement composers

Each composer returns immediately when no audio context exists, and
otherwise lays out four bars of events by calling the primitives at
absolute times computed from `now`, `beatDur = 60 / bpm` and
`barDur = 4 * beatDur`. -/

/-- `generateChillout(bpm, bars)`. -/
def generateChillout (s0 : EngineState) (bpm : ℤ) (bars : ℕ) : EngineState :=
  if !s0.audioContextLive then s0
  else
    let now := s0.now
    let beatDur : ℚ := 60 / (bpm : ℚ)
    let barDur : ℚ := beatDur * 4
    let s1 := (List.range bars).foldl (fun s bar =>
      let chordDegrees :=
        [[0, 2, 4], [3, 5, 0], [4, 6, 1], [2, 4, 6]].getD (bar % 4) []
      chordDegrees.foldl (fun s deg =>
        let freq := engineGetFrequency s deg 1
        createPad s freq (now + (bar : ℚ) * barDur) (barDur * 0.95) 0.12) s) s0
    let s2 := (List.range s1.generatedMelody.length).foldl (fun s i =>
      let freq := jsArrGet s.generatedMelody i
      if freq.gtZero && i % 2 == 0 then
        createOscillator s freq .sine (now + (i : ℚ) * beatDur)
          (beatDur * 1.5) 0.08 0.1 0.3
      else s) s1
    (List.range bars).foldl (fun s bar =>
      let s := createKick s (now + (bar : ℚ) * barDur) 0.25 false
      createKick s (now + (bar : ℚ) * barDur + beatDur * 2) 0.2 false) s2

/-- `generateTechno(bpm, bars)`.  The bassline gate draws from the engine
generator (`this.rng.chance(0.8)`), advancing the stored seed. -/
def generateTechno (s0 : EngineState) (bpm : ℤ) (bars : ℕ) : EngineState :=
  if !s0.audioContextLive then s0
  else
    let now := s0.now
    let beatDur : ℚ := 60 / (bpm : ℚ)
    let barDur : ℚ := beatDur * 4
    let s1 := (List.range bars).foldl (fun s bar =>
      (List.range 4).foldl (fun s beat =>
        createKick s (now + (bar : ℚ) * barDur + (beat : ℚ) * beatDur) 0.5
          false) s) s0
    let s2 := (List.range bars).foldl (fun s bar =>
      (List.range 4).foldl (fun s beat =>
        createHiHat s
          (now + (bar : ℚ) * barDur + (beat : ℚ) * beatDur + beatDur / 2)
          0.12 false) s) s1
    let s3 := (List.range bars).foldl (fun s bar =>
      let s := createSnare s (now + (bar : ℚ) * barDur + beatDur) 0.3
      createSnare s (now + (bar : ℚ) * barDur + beatDur * 3) 0.3) s2
    let s4 := (List.range bars).foldl (fun s bar =>
      (List.range 8).foldl (fun s i =>
        let freq := jsArrGet s.generatedBassline (i % s.generatedBassline.length)
        let time := now + (bar : ℚ) * barDur + (i : ℚ) * (beatDur / 2)
        let sc := engineChance s chance08T
        if sc.2 then createBass sc.1 freq time (beatDur / 2 * 0.9) 0.25
        else sc.1) s) s3
    (List.range s4.generatedMelody.length).foldl (fun s i =>
      let freq := jsArrGet s.generatedMelody i
      if freq.gtZero then
        createOscillator s freq .sawtooth (now + (i : ℚ) * (beatDur / 2))
          (beatDur / 2 * 0.6) 0.1 0.01 0.05
      else s) s4

/-- `generateTrance(bpm, bars)`.  The pad loop steps two bars at a time
(`bar = 2 * j`). -/
def generateTrance (s0 : EngineState) (bpm : ℤ) (bars : ℕ) : EngineState :=
  if !s0.audioContextLive then s0
  else
    let now := s0.now
    let beatDur : ℚ := 60 / (bpm : ℚ)
    let barDur : ℚ := beatDur * 4
    let s1 := (List.range bars).foldl (fun s bar =>
      (List.range 4).foldl (fun s beat =>
        createKick s (now + (bar : ℚ) * barDur + (beat : ℚ) * beatDur) 0.55
          false) s) s0
    let s2 := (List.range bars).foldl (fun s bar =>
      (List.range 4).foldl (fun s beat =>
        createHiHat s
          (now + (bar : ℚ) * barDur + (beat : ℚ) * beatDur + beatDur / 2)
          0.1 true) s) s1
    let s3 := (List.range bars).foldl (fun s bar =>
      let s := createSnare s (now + (bar : ℚ) * barDur + beatDur) 0.35
      createSnare s (now + (bar : ℚ) * barDur + beatDur * 3) 0.35) s2
    let s4 := (List.range bars).foldl (fun s bar =>
      (List.range 16).foldl (fun s i =>
        let freq := jsArrGet s.generatedBassline (i % s.generatedBassline.length)
        let time := now + (bar : ℚ) * barDur + (i : ℚ) * (beatDur / 4)
        createBass s freq time (beatDur / 4 * 0.85) 0.2) s) s3
    let s5 := (List.range ((bars + 1) / 2)).foldl (fun s j =>
      let bar : ℕ := 2 * j
      let chordDegrees := [[0, 2, 4, 7], [5, 0, 2, 4]].getD ((bar / 2) % 2) []
      chordDegrees.foldl (fun s deg =>
        let freq := engineGetFrequency s deg 1
        createPad s freq (now + (bar : ℚ) * barDur) (barDur * 2 * 0.95) 0.1)
        s) s4
    (List.range s5.generatedMelody.length).foldl (fun s i =>
      let freq := jsArrGet s.generatedMelody i
      if freq.gtZero then
        createLead s freq (now + (i : ℚ) * (beatDur / 2)) (beatDur / 2 * 0.8)
          0.12
      else s) s5

/-- `generateHardstyle(bpm, bars)`. -/
def generateHardstyle (s0 : EngineState) (bpm : ℤ) (bars : ℕ) : EngineState :=
  if !s0.audioContextLive then s0
  else
    let now := s0.now
    let beatDur : ℚ := 60 / (bpm : ℚ)
    let barDur : ℚ := beatDur * 4
    let s1 := (List.range bars).foldl (fun s bar =>
      (List.range 4).foldl (fun s beat =>
        createKick s (now + (bar : ℚ) * barDur + (beat : ℚ) * beatDur) 0.65
          true) s) s0
    let s2 := (List.range bars).foldl (fun s bar =>
      (List.range 4).foldl (fun s beat =>
        let freq := jsArrGet s.generatedBassline (beat % s.generatedBassline.length)
        let time := now + (bar : ℚ) * barDur + (beat : ℚ) * beatDur + beatDur / 2
        createBass s freq time (beatDur * 0.4) 0.35) s) s1
    let s3 := (List.range bars).foldl (fun s bar =>
      let s := createSnare s (now + (bar : ℚ) * barDur + beatDur) 0.4
      let s := createSnare s (now + (bar : ℚ) * barDur + beatDur * 3) 0.4
      if bar % 4 == 3 then
        (List.range 4).foldl (fun s i =>
          createSnare s
            (now + (bar : ℚ) * barDur + beatDur * 3 + (i : ℚ) * (beatDur / 4))
            0.3) s
      else s) s2
    (List.range ((bars + 1) / 2)).foldl (fun s j =>
      let bar : ℕ := 2 * j
      (List.range 8).foldl (fun s i =>
        let freq := jsArrGet s.generatedMelody (i % s.generatedMelody.length)
        if freq.gtZero then
          createLead s freq (now + (bar : ℚ) * barDur + (i : ℚ) * beatDur)
            (beatDur * 0.7) 0.15
        else s) s) s3

/-- `generateHardcore(bpm, bars)`.  The lead plays the melody one octave up
(`freq * 2`). -/
def generateHardcore (s0 : EngineState) (bpm : ℤ) (bars : ℕ) : EngineState :=
  if !s0.audioContextLive then s0
  else
    let now := s0.now
    let beatDur : ℚ := 60 / (bpm : ℚ)
    let barDur : ℚ := beatDur * 4
    let s1 := (List.range bars).foldl (fun s bar =>
      (List.range 4).foldl (fun s beat =>
        let s := createKick s (now + (bar : ℚ) * barDur + (beat : ℚ) * beatDur)
          0.7 true
        if bar % 2 == 1 then
          createKick s
            (now + (bar : ℚ) * barDur + (beat : ℚ) * beatDur + beatDur / 2)
            0.5 true
        else s) s) s0
    let s2 := (List.range bars).foldl (fun s bar =>
      (List.range 8).foldl (fun s i =>
        let freq := jsArrGet s.generatedBassline (i % s.generatedBassline.length)
        let time := now + (bar : ℚ) * barDur + (i : ℚ) * (beatDur / 2)
        createBass s freq time (beatDur / 2 * 0.5) 0.4) s) s1
    let s3 := (List.range bars).foldl (fun s bar =>
      (List.range 8).foldl (fun s i =>
        createHiHat s (now + (bar : ℚ) * barDur + (i : ℚ) * (beatDur / 2))
          0.15 false) s) s2
    (List.range s3.generatedMelody.length).foldl (fun s i =>
      let freq := jsArrGet s.generatedMelody i
      if freq.gtZero then
        createLead s freq.double (now + (i : ℚ) * (beatDur / 2))
          (beatDur / 2 * 0.6) 0.18
      else s) s3

/-! ## Playback scheduler -/

/-- `generateMusic()`: re-derive BPM and genre from the current
contributions and dispatch to the genre composer for 4 bars. -/
def generateMusic (s : EngineState) : EngineState :=
  let bpm := getBPMFromContributions s.config.contributions
  let genre := getGenreFromBPM bpm
  let bars := 4
  match genre with
  | .chillout => generateChillout s bpm bars
  | .techno => generateTechno s bpm bars
  | .trance => generateTrance s bpm bars
  | .hardstyle => generateHardstyle s bpm bars
  | .hardcore => generateHardcore s bpm bars

/-- `loop()`: bail out if not playing, otherwise schedule one loop window
and arm the one-shot continuation timer. -/
def engineLoop (s : EngineState) : EngineState :=
  if !s.isPlaying then s
  else { generateMusic s with loopTimeoutArmed := true }

/-- `play()`: raise `isLoading`, lazily claim the device, regenerate the
patterns, and (unless already playing) start the loop. -/
def enginePlay (s : EngineState) : EngineState :=
  let s1 := { s with isLoading := true }
  let s2 := engineInit s1
  let s3 := generateUniquePatternsS s2
  if s3.isPlaying then { s3 with isLoading := false }
  else engineLoop { s3 with isPlaying := true, isLoading := false }

/-- `node.stop()` on a tracked source node: the platform rejects the call
(throws) once the unit has already finished. -/
def nodeStop (n : ScheduledNode) : Except Unit ScheduledNode :=
  if n.finished then .error () else .ok { n with finished := true }

/-- The `forEach(node => { try { node.stop() } catch {} })` traversal of
`stop()`: every failure is caught and discarded, so the traversal always
completes and the list is cleared. -/
def tryStopAll : List ScheduledNode → List ScheduledNode
  | [] => []
  | n :: ns =>
      match nodeStop n with
      | .ok _ => tryStopAll ns
      | .error _ => tryStopAll ns

/-- `stop()`: lower `isPlaying`, cancel the pending continuation, halt and
clear every tracked node. -/
def engineStop (s : EngineState) : EngineState :=
  let s1 := { s with isPlaying := false }
  let s2 := if s1.loopTimeoutArmed then { s1 with loopTimeoutArmed := false }
    else s1
  { s2 with scheduledNodes := tryStopAll s2.scheduledNodes }

/-- `toggle()`. -/
def engineToggle (s : EngineState) : EngineState :=
  if s.isPlaying then engineStop s else enginePlay s

/-- `destroy()`: stop, then close and release the audio context. -/
def engineDestroy (s : EngineState) : EngineState :=
  let s1 := engineStop s
  if s1.audioContextLive then { s1 with audioContextLive := false } else s1

/-- The engine operations a caller (or the armed timer) can perform. -/
inductive Op : Type
  | updateConfig (newContributions newStreakDays : Option ℤ)
  | play
  | stop
  | toggle
  | destroy
  | tick
deriving DecidableEq

/-- One operation.  `tick` is the armed `setTimeout` continuation firing:
it re-enters `loop()`; when the timer was cancelled it does nothing. -/
def stepOp (s : EngineState) : Op → EngineState
  | .updateConfig c d => engineUpdateConfig s c d
  | .play => enginePlay s
  | .stop => engineStop s
  | .toggle => engineToggle s
  | .destroy => engineDestroy s
  | .tick => if s.loopTimeoutArmed then engineLoop s else s

/-- Run a sequence of operations from a state. -/
def runOps (s : EngineState) : List Op → EngineState
  | [] => s
  | op :: ops => runOps (stepOp s op) ops

/-! ## Auxiliary definitions used by the verification -/

/-- The BPM curve before rounding (the piecewise-linear function whose
`jsRound` is `getBPMFromContributions`); used to factor the monotonicity
argument. -/
def bpmQ (c : ℤ) : ℚ :=
  if c ≤ 0 then 85
  else if c ≤ 200 then 85 + (c : ℚ) / 200 * 24
  else if c ≤ 800 then 110 + ((c : ℚ) - 200) / 600 * 17
  else if c ≤ 2000 then 128 + ((c : ℚ) - 800) / 1200 * 11
  else if c ≤ 4000 then 140 + ((c : ℚ) - 2000) / 2000 * 14
  else 155 + min (((c : ℚ) - 4000) / 4000) 1 * 25

/-- Frame relation: `t` agrees with `s` on every engine field except the
scheduled-node list and the stored random seed (the only fields the sound
primitives and composers may touch). -/
structure SchedOnly (s t : EngineState) : Prop where
  ctx : t.audioContextLive = s.audioContextLive
  gain : t.masterGainLive = s.masterGainLive
  playing : t.isPlaying = s.isPlaying
  loading : t.isLoading = s.isLoading
  armed : t.loopTimeoutArmed = s.loopTimeoutArmed
  config : t.config = s.config
  melody : t.generatedMelody = s.generatedMelody
  bassline : t.generatedBassline = s.generatedBassline
  root : t.rootFreq = s.rootFreq
  scale : t.scale = s.scale
  now : t.now = s.now

/-- The stored patterns, root and scale are exactly the ones
`generateUniquePatterns` produces for the current `config.contributions`. -/
def genConsistent (s : EngineState) : Prop :=
  s.generatedMelody = (generateUniquePatterns s.config.contributions).melody ∧
  s.generatedBassline = (generateUniquePatterns s.config.contributions).bassline ∧
  s.rootFreq = (generateUniquePatterns s.config.contributions).rootFreq ∧
  s.scale = (generateUniquePatterns s.config.contributions).scale

/-! ## Basic lemmas: rounding, tmod, tables -/

theorem tmod_nonpos_of_neg {c : ℤ} (h : c < 0) : c.tmod 12 ≤ 0 := by
  cases c with
  | ofNat m => exact absurd h (by simp [Int.ofNat_nonneg])
  | negSucc m =>
      have e : Int.tmod (Int.negSucc m) 12 = -Int.ofNat ((m + 1) % 12) := rfl
      rw [e, Int.ofNat_eq_natCast, neg_nonpos]
      exact Int.natCast_nonneg _

theorem tmod_bounds_of_nonneg {c : ℤ} (h : 0 ≤ c) :
    0 ≤ c.tmod 12 ∧ c.tmod 12 < 12 := by
  rw [Int.tmod_eq_emod h (by norm_num)]
  omega

theorem SCALES_ne_nil (n : ScaleName) : SCALES n ≠ [] := by
  cases n <;> simp [SCALES]

theorem rootNoteAt_pos {i : ℤ} (h0 : 0 ≤ i) (h12 : i < 12) :
    ∃ r, rootNoteAt i = some r ∧ 0 < r := by
  unfold rootNoteAt
  rw [if_neg (not_lt.2 h0)]
  interval_cases i <;> exact ⟨_, rfl, by norm_num⟩

theorem rootNoteAt_neg {i : ℤ} (h : i < 0) : rootNoteAt i = none := by
  unfold rootNoteAt
  rw [if_pos h]

/-! ## Pattern generator lemmas -/

theorem getFrequency_of_none (scale : List ℕ) (d o : ℕ) :
    getFrequency none scale d o = .nan := by
  unfold getFrequency
  rcases scale.get? (d % scale.length) with _ | s <;> rfl

theorem getFrequency_note (r : ℚ) (scale : List ℕ) (hs : scale ≠ [])
    (d o : ℕ) : ∃ k : ℤ, getFrequency (some r) scale d o = .note r k := by
  unfold getFrequency
  have hl : d % scale.length < scale.length :=
    Nat.mod_lt _ (List.length_pos.2 hs)
  obtain ⟨semi, hsem⟩ : ∃ a, scale.get? (d % scale.length) = some a :=
    ⟨_, List.get?_eq_get hl⟩
  rw [hsem]
  exact ⟨_, rfl⟩

theorem toRealQ_note_pos {r : ℚ} (h : 0 < r) (k : ℤ) :
    ∃ x, (JSVal.note r k).toRealQ = some x ∧ 0 < x := by
  refine ⟨_, rfl, ?_⟩
  have h1 : (0 : ℝ) < (r : ℝ) := by exact_mod_cast h
  have h2 : (0 : ℝ) < (2 : ℝ) ^ ((k : ℝ) / 12) :=
    Real.rpow_pos_of_pos (by norm_num) _
  exact mul_pos h1 h2

theorem genMelody_length (root : Option ℚ) (scale : List ℕ) :
    ∀ (n : ℕ) (seed : ℤ), ((genMelody root scale n seed).2).length = n
  | 0, _ => rfl
  | n + 1, seed => by
      unfold genMelody
      dsimp only
      split <;> simp [genMelody_length root scale n]

theorem genMelody_mem (root : Option ℚ) (scale : List ℕ) :
    ∀ (n : ℕ) (seed : ℤ) (v : JSVal), v ∈ (genMelody root scale n seed).2 →
      v = JSVal.num 0 ∨ ∃ d o, v = getFrequency root scale d o
  | 0, _, v, h => absurd h (List.not_mem_nil v)
  | n + 1, seed, v, h => by
      unfold genMelody at h
      dsimp only at h
      split at h
      · rcases List.mem_cons.1 h with h1 | h1
        · exact Or.inr ⟨_, _, h1⟩
        · exact genMelody_mem root scale n _ v h1
      · rcases List.mem_cons.1 h with h1 | h1
        · exact Or.inl h1
        · exact genMelody_mem root scale n _ v h1

theorem genBassline_length (root : Option ℚ) (scale : List ℕ) :
    ∀ (n : ℕ) (seed : ℤ), ((genBassline root scale n seed).2).length = n
  | 0, _ => rfl
  | n + 1, seed => by
      unfold genBassline
      simp [genBassline_length root scale n]

theorem genBassline_mem (root : Option ℚ) (scale : List ℕ) :
    ∀ (n : ℕ) (seed : ℤ) (v : JSVal), v ∈ (genBassline root scale n seed).2 →
      ∃ d, v = getFrequency root scale d 0
  | 0, _, v, h => absurd h (List.not_mem_nil v)
  | n + 1, seed, v, h => by
      unfold genBassline at h
      dsimp only at h
      rcases List.mem_cons.1 h with h1 | h1
      · exact ⟨_, h1⟩
      · exact genBassline_mem root scale n _ v h1

theorem generateUniquePatterns_melody_length (c : ℤ) :
    (generateUniquePatterns c).melody.length = 16 := by
  unfold generateUniquePatterns
  exact genMelody_length _ _ 16 _

theorem generateUniquePatterns_bassline_length (c : ℤ) :
    (generateUniquePatterns c).bassline.length = 8 := by
  unfold generateUniquePatterns
  exact genBassline_length _ _ 8 _

theorem generateUniquePatterns_rootFreq (c : ℤ) :
    (generateUniquePatterns c).rootFreq = rootNoteAt (c.tmod 12) := rfl

theorem generateUniquePatterns_scale (c : ℤ) :
    ∃ name, (generateUniquePatterns c).scale = SCALES name := ⟨_, rfl⟩

/-! ## BPM lemmas -/

theorem bpm_eq_round (c : ℤ) : getBPMFromContributions c = jsRound (bpmQ c) := by
  unfold getBPMFromContributions bpmQ
  split_ifs <;> norm_num [jsRound]

theorem tier5_mono {a b : ℚ} (h : a ≤ b) :
    155 + min (a / 4000) 1 * 25 ≤ 155 + min (b / 4000) 1 * 25 := by
  gcongr

set_option maxHeartbeats 2000000 in
theorem bpmQ_step (c : ℤ) : bpmQ c ≤ bpmQ (c + 1) := by
  unfold bpmQ
  split_ifs <;>
    push_cast <;>
    first
      | omega
      | linarith
      | (exact tier5_mono (by linarith))
      | (have hc : c = 0 := by omega
         subst hc
         norm_num)
      | (have hc : c = 200 := by omega
         subst hc
         norm_num)
      | (have hc : c = 800 := by omega
         subst hc
         norm_num)
      | (have hc : c = 2000 := by omega
         subst hc
         norm_num)
      | (have hc : c = 4000 := by omega
         subst hc
         norm_num [min_def])

theorem bpmQ_mono {c1 c2 : ℤ} (h : c1 ≤ c2) : bpmQ c1 ≤ bpmQ c2 := by
  obtain ⟨k, rfl⟩ : ∃ k : ℕ, c2 = c1 + k := ⟨(c2 - c1).toNat, by omega⟩
  clear h
  induction k with
  | zero => simp
  | succ n ih =>
      have e : c1 + ((n : ℤ) + 1) = (c1 + n) + 1 := by ring
      calc bpmQ c1 ≤ bpmQ (c1 + n) := ih
        _ ≤ bpmQ (c1 + n + 1) := bpmQ_step _
        _ = bpmQ (c1 + (n + 1 : ℕ)) := by push_cast; rw [e]

theorem getBPM_mono {c1 c2 : ℤ} (h : c1 ≤ c2) :
    getBPMFromContributions c1 ≤ getBPMFromContributions c2 := by
  rw [bpm_eq_round, bpm_eq_round]
  exact Int.floor_le_floor (by linarith [bpmQ_mono h])

theorem bpm_of_nonpos {c : ℤ} (h : c ≤ 0) : getBPMFromContributions c = 85 := by
  unfold getBPMFromContributions
  rw [if_pos h]

/-! ## Frame lemmas for the primitives -/

theorem schedOnly_refl (s : EngineState) : SchedOnly s s :=
  ⟨rfl, rfl, rfl, rfl, rfl, rfl, rfl, rfl, rfl, rfl, rfl⟩

theorem schedOnly_trans {s t u : EngineState} (h1 : SchedOnly s t)
    (h2 : SchedOnly t u) : SchedOnly s u :=
  ⟨h2.ctx.trans h1.ctx, h2.gain.trans h1.gain, h2.playing.trans h1.playing,
   h2.loading.trans h1.loading, h2.armed.trans h1.armed,
   h2.config.trans h1.config, h2.melody.trans h1.melody,
   h2.bassline.trans h1.bassline, h2.root.trans h1.root,
   h2.scale.trans h1.scale, h2.now.trans h1.now⟩

theorem schedOnly_foldl {α : Type} (f : EngineState → α → EngineState)
    (hf : ∀ s a, SchedOnly s (f s a)) :
    ∀ (l : List α) (s : EngineState), SchedOnly s (List.foldl f s l)
  | [], s => schedOnly_refl s
  | a :: l, s => schedOnly_trans (hf s a) (schedOnly_foldl f hf l (f s a))

theorem engineChance_frame (s : EngineState) (t : ℕ) :
    SchedOnly s (engineChance s t).1 :=
  ⟨rfl, rfl, rfl, rfl, rfl, rfl, rfl, rfl, rfl, rfl, rfl⟩

theorem createOscillator_frame (s : EngineState) (freq : JSVal)
    (type : OscType) (st d v a r : ℚ) :
    SchedOnly s (createOscillator s freq type st d v a r) := by
  unfold createOscillator
  split
  · exact schedOnly_refl s
  · exact ⟨rfl, rfl, rfl, rfl, rfl, rfl, rfl, rfl, rfl, rfl, rfl⟩

theorem createKick_frame (s : EngineState) (st v : ℚ) (hard : Bool) :
    SchedOnly s (createKick s st v hard) := by
  unfold createKick
  split
  · exact schedOnly_refl s
  · dsimp only
    split
    · exact ⟨rfl, rfl, rfl, rfl, rfl, rfl, rfl, rfl, rfl, rfl, rfl⟩
    · exact ⟨rfl, rfl, rfl, rfl, rfl, rfl, rfl, rfl, rfl, rfl, rfl⟩

theorem createHiHat_frame (s : EngineState) (st v : ℚ) (o : Bool) :
    SchedOnly s (createHiHat s st v o) := by
  unfold createHiHat
  split
  · exact schedOnly_refl s
  · exact ⟨rfl, rfl, rfl, rfl, rfl, rfl, rfl, rfl, rfl, rfl, rfl⟩

theorem createSnare_frame (s : EngineState) (st v : ℚ) :
    SchedOnly s (createSnare s st v) := by
  unfold createSnare
  split
  · exact schedOnly_refl s
  · exact ⟨rfl, rfl, rfl, rfl, rfl, rfl, rfl, rfl, rfl, rfl, rfl⟩

theorem createBass_frame (s : EngineState) (freq : JSVal) (st d v : ℚ) :
    SchedOnly s (createBass s freq st d v) := by
  unfold createBass
  split
  · exact schedOnly_refl s
  · exact ⟨rfl, rfl, rfl, rfl, rfl, rfl, rfl, rfl, rfl, rfl, rfl⟩

theorem createPad_frame (s : EngineState) (freq : JSVal) (st d v : ℚ) :
    SchedOnly s (createPad s freq st d v) := by
  unfold createPad
  split
  · exact schedOnly_refl s
  · exact ⟨rfl, rfl, rfl, rfl, rfl, rfl, rfl, rfl, rfl, rfl, rfl⟩

theorem createLead_frame (s : EngineState) (freq : JSVal) (st d v : ℚ) :
    SchedOnly s (createLead s freq st d v) := by
  unfold createLead
  split
  · exact schedOnly_refl s
  · exact ⟨rfl, rfl, rfl, rfl, rfl, rfl, rfl, rfl, rfl, rfl, rfl⟩

/-! ## Frame lemmas for the composers -/

theorem generateChillout_frame (s : EngineState) (bpm : ℤ) (bars : ℕ) :
    SchedOnly s (generateChillout s bpm bars) := by
  unfold generateChillout
  split
  · exact schedOnly_refl s
  · refine schedOnly_trans (schedOnly_trans (schedOnly_foldl _ ?_ _ _)
      (schedOnly_foldl _ ?_ _ _)) (schedOnly_foldl _ ?_ _ _)
    · intro s1 bar
      exact schedOnly_foldl _ (fun s2 deg => createPad_frame _ _ _ _ _) _ _
    · intro s1 i
      dsimp only
      split
      · exact createOscillator_frame _ _ _ _ _ _ _ _
      · exact schedOnly_refl _
    · intro s1 bar
      exact schedOnly_trans (createKick_frame _ _ _ _) (createKick_frame _ _ _ _)

theorem generateTechno_frame (s : EngineState) (bpm : ℤ) (bars : ℕ) :
    SchedOnly s (generateTechno s bpm bars) := by
  unfold generateTechno
  split
  · exact schedOnly_refl s
  · refine schedOnly_trans (schedOnly_trans (schedOnly_trans (schedOnly_trans
      (schedOnly_foldl _ ?_ _ _) (schedOnly_foldl _ ?_ _ _))
      (schedOnly_foldl _ ?_ _ _)) (schedOnly_foldl _ ?_ _ _))
      (schedOnly_foldl _ ?_ _ _)
    · intro s1 bar
      exact schedOnly_foldl _ (fun s2 beat => createKick_frame _ _ _ _) _ _
    · intro s1 bar
      exact schedOnly_foldl _ (fun s2 beat => createHiHat_frame _ _ _ _) _ _
    · intro s1 bar
      exact schedOnly_trans (createSnare_frame _ _ _) (createSnare_frame _ _ _)
    · intro s1 bar
      refine schedOnly_foldl _ ?_ _ _
      intro s2 i
      dsimp only
      split
      · exact schedOnly_trans (engineChance_frame _ _) (createBass_frame _ _ _ _ _)
      · exact engineChance_frame _ _
    · intro s1 i
      dsimp only
      split
      · exact createOscillator_frame _ _ _ _ _ _ _ _
      · exact schedOnly_refl _

theorem generateTrance_frame (s : EngineState) (bpm : ℤ) (bars : ℕ) :
    SchedOnly s (generateTrance s bpm bars) := by
  unfold generateTrance
  split
  · exact schedOnly_refl s
  · refine schedOnly_trans (schedOnly_trans (schedOnly_trans (schedOnly_trans
      (schedOnly_trans (schedOnly_foldl _ ?_ _ _) (schedOnly_foldl _ ?_ _ _))
      (schedOnly_foldl _ ?_ _ _)) (schedOnly_foldl _ ?_ _ _))
      (schedOnly_foldl _ ?_ _ _)) (schedOnly_foldl _ ?_ _ _)
    · intro s1 bar
      exact schedOnly_foldl _ (fun s2 beat => createKick_frame _ _ _ _) _ _
    · intro s1 bar
      exact schedOnly_foldl _ (fun s2 beat => createHiHat_frame _ _ _ _) _ _
    · intro s1 bar
      exact schedOnly_trans (createSnare_frame _ _ _) (createSnare_frame _ _ _)
    · intro s1 bar
      exact schedOnly_foldl _ (fun s2 i => createBass_frame _ _ _ _ _) _ _
    · intro s1 j
      exact schedOnly_foldl _ (fun s2 deg => createPad_frame _ _ _ _ _) _ _
    · intro s1 i
      dsimp only
      split
      · exact createLead_frame _ _ _ _ _
      · exact schedOnly_refl _

theorem generateHardstyle_frame (s : EngineState) (bpm : ℤ) (bars : ℕ) :
    SchedOnly s (generateHardstyle s bpm bars) := by
  unfold generateHardstyle
  split
  · exact schedOnly_refl s
  · refine schedOnly_trans (schedOnly_trans (schedOnly_trans
      (schedOnly_foldl _ ?_ _ _) (schedOnly_foldl _ ?_ _ _))
      (schedOnly_foldl _ ?_ _ _)) (schedOnly_foldl _ ?_ _ _)
    · intro s1 bar
      exact schedOnly_foldl _ (fun s2 beat => createKick_frame _ _ _ _) _ _
    · intro s1 bar
      exact schedOnly_foldl _ (fun s2 beat => createBass_frame _ _ _ _ _) _ _
    · intro s1 bar
      dsimp only
      split
      · exact schedOnly_trans (schedOnly_trans (createSnare_frame _ _ _)
          (createSnare_frame _ _ _))
          (schedOnly_foldl _ (fun s2 i => createSnare_frame _ _ _) _ _)
      · exact schedOnly_trans (createSnare_frame _ _ _) (createSnare_frame _ _ _)
    · intro s1 j
      refine schedOnly_foldl _ ?_ _ _
      intro s2 i
      dsimp only
      split
      · exact createLead_frame _ _ _ _ _
      · exact schedOnly_refl _

theorem generateHardcore_frame (s : EngineState) (bpm : ℤ) (bars : ℕ) :
    SchedOnly s (generateHardcore s bpm bars) := by
  unfold generateHardcore
  split
  · exact schedOnly_refl s
  · refine schedOnly_trans (schedOnly_trans (schedOnly_trans
      (schedOnly_foldl _ ?_ _ _) (schedOnly_foldl _ ?_ _ _))
      (schedOnly_foldl _ ?_ _ _)) (schedOnly_foldl _ ?_ _ _)
    · intro s1 bar
      refine schedOnly_foldl _ ?_ _ _
      intro s2 beat
      dsimp only
      split
      · exact schedOnly_trans (createKick_frame _ _ _ _) (createKick_frame _ _ _ _)
      · exact createKick_frame _ _ _ _
    · intro s1 bar
      exact schedOnly_foldl _ (fun s2 i => createBass_frame _ _ _ _ _) _ _
    · intro s1 bar
      exact schedOnly_foldl _ (fun s2 i => createHiHat_frame _ _ _ _) _ _
    · intro s1 i
      dsimp only
      split
      · exact createLead_frame _ _ _ _ _
      · exact schedOnly_refl _

theorem generateMusic_frame (s : EngineState) : SchedOnly s (generateMusic s) := by
  unfold generateMusic
  dsimp only
  split
  · exact generateChillout_frame _ _ _
  · exact generateTechno_frame _ _ _
  · exact generateTrance_frame _ _ _
  · exact generateHardstyle_frame _ _ _
  · exact generateHardcore_frame _ _ _

/-! ## Scheduler lemmas -/

theorem engineLoop_ctx (s : EngineState) :
    (engineLoop s).audioContextLive = s.audioContextLive := by
  unfold engineLoop
  split
  · rfl
  · exact (generateMusic_frame s).ctx

theorem engineLoop_isPlaying (s : EngineState) :
    (engineLoop s).isPlaying = s.isPlaying := by
  unfold engineLoop
  split
  · rfl
  · exact (generateMusic_frame s).playing

theorem engineLoop_config (s : EngineState) :
    (engineLoop s).config = s.config := by
  unfold engineLoop
  split
  · rfl
  · exact (generateMusic_frame s).config

theorem engineLoop_melody (s : EngineState) :
    (engineLoop s).generatedMelody = s.generatedMelody := by
  unfold engineLoop
  split
  · rfl
  · exact (generateMusic_frame s).melody

theorem engineLoop_bassline (s : EngineState) :
    (engineLoop s).generatedBassline = s.generatedBassline := by
  unfold engineLoop
  split
  · rfl
  · exact (generateMusic_frame s).bassline

theorem engineLoop_root (s : EngineState) :
    (engineLoop s).rootFreq = s.rootFreq := by
  unfold engineLoop
  split
  · rfl
  · exact (generateMusic_frame s).root

theorem engineLoop_scale (s : EngineState) :
    (engineLoop s).scale = s.scale := by
  unfold engineLoop
  split
  · rfl
  · exact (generateMusic_frame s).scale

theorem genUPS_isPlaying (s : EngineState) :
    (generateUniquePatternsS s).isPlaying = s.isPlaying := rfl

theorem genUPS_ctx (s : EngineState) :
    (generateUniquePatternsS s).audioContextLive = s.audioContextLive := rfl

theorem genUPS_config (s : EngineState) :
    (generateUniquePatternsS s).config = s.config := rfl

theorem genConsistent_genUPS (s : EngineState) :
    genConsistent (generateUniquePatternsS s) := ⟨rfl, rfl, rfl, rfl⟩

theorem genConsistent_engineLoop {s : EngineState} (h : genConsistent s) :
    genConsistent (engineLoop s) := by
  unfold genConsistent at h ⊢
  rw [engineLoop_melody, engineLoop_bassline, engineLoop_root,
      engineLoop_scale, engineLoop_config]
  exact h

theorem engineInit_ctx (s : EngineState) :
    (engineInit s).audioContextLive = true := by
  unfold engineInit
  split
  · assumption
  · rfl

theorem engineInit_isPlaying (s : EngineState) :
    (engineInit s).isPlaying = s.isPlaying := by
  unfold engineInit
  split <;> rfl

theorem tryStopAll_eq_nil : ∀ ns : List ScheduledNode, tryStopAll ns = []
  | [] => rfl
  | n :: ns => by
      unfold tryStopAll
      split <;> exact tryStopAll_eq_nil ns

theorem engineStop_isPlaying (s : EngineState) :
    (engineStop s).isPlaying = false := by
  unfold engineStop
  dsimp only
  split <;> rfl

theorem engineStop_armed (s : EngineState) :
    (engineStop s).loopTimeoutArmed = false := by
  unfold engineStop
  dsimp only
  split
  · rfl
  · next h => simpa using h

theorem engineStop_nodes (s : EngineState) :
    (engineStop s).scheduledNodes = [] := by
  unfold engineStop
  dsimp only
  split <;> exact tryStopAll_eq_nil _

theorem engineStop_ctx (s : EngineState) :
    (engineStop s).audioContextLive = s.audioContextLive := by
  unfold engineStop
  dsimp only
  split <;> rfl

theorem engineDestroy_ctx (s : EngineState) :
    (engineDestroy s).audioContextLive = false := by
  unfold engineDestroy
  dsimp only
  split
  · rfl
  · next h => simpa using h

theorem engineDestroy_isPlaying (s : EngineState) :
    (engineDestroy s).isPlaying = false := by
  unfold engineDestroy
  dsimp only
  split <;> exact engineStop_isPlaying s

theorem engineDestroy_armed (s : EngineState) :
    (engineDestroy s).loopTimeoutArmed = false := by
  unfold engineDestroy
  dsimp only
  split <;> exact engineStop_armed s

theorem engineDestroy_nodes (s : EngineState) :
    (engineDestroy s).scheduledNodes = [] := by
  unfold engineDestroy
  dsimp only
  split <;> exact engineStop_nodes s

theorem enginePlay_ctx_isPlaying (s : EngineState) (h : s.isPlaying = false) :
    (enginePlay s).audioContextLive = true ∧ (enginePlay s).isPlaying = true := by
  unfold enginePlay
  dsimp only
  have h3 : (generateUniquePatternsS
      (engineInit { s with isLoading := true })).isPlaying = false := by
    rw [genUPS_isPlaying, engineInit_isPlaying]
    exact h
  rw [if_neg (by simp [h3])]
  constructor
  · rw [engineLoop_ctx]
    show (generateUniquePatternsS
      (engineInit { s with isLoading := true })).audioContextLive = true
    rw [genUPS_ctx, engineInit_ctx]
  · rw [engineLoop_isPlaying]

theorem enginePlay_genConsistent (s : EngineState) :
    genConsistent (enginePlay s) := by
  unfold enginePlay
  dsimp only
  split
  · exact genConsistent_genUPS _
  · exact genConsistent_engineLoop (genConsistent_genUPS _)

/-! ## Invariant: playing states hold freshly generated patterns -/

theorem engineUpdateConfig_inv (s : EngineState) (nc nd : Option ℤ)
    (h : s.isPlaying = true → genConsistent s) :
    (engineUpdateConfig s nc nd).isPlaying = true →
      genConsistent (engineUpdateConfig s nc nd) := by
  unfold engineUpdateConfig
  dsimp only
  cases nc with
  | none => exact fun hp => h hp
  | some c =>
      dsimp only
      split
      · exact fun _ => genConsistent_genUPS _
      · next hne =>
          intro hp
          have hc : c = s.config.contributions := not_not.1 hne
          have hgen := h hp
          unfold genConsistent at hgen ⊢
          dsimp only
          rw [hc]
          exact hgen

theorem stepOp_inv (s : EngineState) (op : Op)
    (h : s.isPlaying = true → genConsistent s) :
    (stepOp s op).isPlaying = true → genConsistent (stepOp s op) := by
  cases op with
  | updateConfig nc nd => exact engineUpdateConfig_inv s nc nd h
  | play => exact fun _ => enginePlay_genConsistent s
  | stop =>
      dsimp only [stepOp]
      intro hp
      rw [engineStop_isPlaying] at hp
      simp at hp
  | toggle =>
      dsimp only [stepOp]
      unfold engineToggle
      split
      · intro hp
        rw [engineStop_isPlaying] at hp
        simp at hp
      · exact fun _ => enginePlay_genConsistent s
  | destroy =>
      dsimp only [stepOp]
      intro hp
      rw [engineDestroy_isPlaying] at hp
      simp at hp
  | tick =>
      dsimp only [stepOp]
      split
      · intro hp
        rw [engineLoop_isPlaying] at hp
        exact genConsistent_engineLoop (h hp)
      · exact h

theorem runOps_inv : ∀ (ops : List Op) (s : EngineState),
    (s.isPlaying = true → genConsistent s) →
    ((runOps s ops).isPlaying = true → genConsistent (runOps s ops))
  | [], _, h => h
  | op :: ops, s, h => runOps_inv ops (stepOp s op) (stepOp_inv s op h)

theorem initState_not_genConsistent : ¬ genConsistent initState := by
  intro h
  have h1 : ([] : List JSVal) = (generateUniquePatterns 500).melody := h.1
  have h2 := generateUniquePatterns_melody_length 500
  rw [← h1] at h2
  simp at h2

theorem engineUpdateConfig_same (s : EngineState) (x : ℤ)
    (h : s.config.contributions = x) :
    engineUpdateConfig s (some x) none = s := by
  unfold engineUpdateConfig
  dsimp only
  rw [if_neg (by simp [h])]
  subst h
  rfl

theorem generateUniquePatterns_melody_mem (c : ℤ) (v : JSVal)
    (hv : v ∈ (generateUniquePatterns c).melody) :
    v = JSVal.num 0 ∨ ∃ d o, v = getFrequency (generateUniquePatterns c).rootFreq
      (generateUniquePatterns c).scale d o := by
  unfold generateUniquePatterns at hv ⊢
  exact genMelody_mem _ _ 16 _ v hv

theorem generateUniquePatterns_bassline_mem (c : ℤ) (v : JSVal)
    (hv : v ∈ (generateUniquePatterns c).bassline) :
    ∃ d, v = getFrequency (generateUniquePatterns c).rootFreq
      (generateUniquePatterns c).scale d 0 := by
  unfold generateUniquePatterns at hv ⊢
  exact genBassline_mem _ _ 8 _ v hv

/-! ## Claim theorems -/

/-- C1: pattern generation is a pure function of the contribution count:
running `generateUniquePatterns` on any two engine states with the same
`config.contributions` — whatever their other fields, including the stored
random seed — produces identical melody, bassline, root frequency and
scale. -/
theorem c1_determinism (s t : EngineState)
    (h : s.config.contributions = t.config.contributions) :
    (generateUniquePatternsS s).generatedMelody =
      (generateUniquePatternsS t).generatedMelody ∧
    (generateUniquePatternsS s).generatedBassline =
      (generateUniquePatternsS t).generatedBassline ∧
    (generateUniquePatternsS s).rootFreq = (generateUniquePatternsS t).rootFreq ∧
    (generateUniquePatternsS s).scale = (generateUniquePatternsS t).scale := by
  unfold generateUniquePatternsS
  dsimp only
  rw [h]
  exact ⟨rfl, rfl, rfl, rfl⟩

/-- Witness for C1 at two concrete states that differ in their stored seed
and melody but share `contributions = 500`. -/
theorem c1_determinism_witness :
    (generateUniquePatternsS initState).generatedMelody =
      (generateUniquePatternsS
        { initState with rngSeed := 0, generatedMelody := [JSVal.nan] }).generatedMelody ∧
    (generateUniquePatternsS initState).generatedBassline =
      (generateUniquePatternsS
        { initState with rngSeed := 0, generatedMelody := [JSVal.nan] }).generatedBassline ∧
    (generateUniquePatternsS initState).rootFreq =
      (generateUniquePatternsS
        { initState with rngSeed := 0, generatedMelody := [JSVal.nan] }).rootFreq ∧
    (generateUniquePatternsS initState).scale =
      (generateUniquePatternsS
        { initState with rngSeed := 0, generatedMelody := [JSVal.nan] }).scale :=
  c1_determinism initState
    { initState with rngSeed := 0, generatedMelody := [JSVal.nan] } rfl

/-- C2 counterexample: the claim asserts `bpm(4000) = 155`, but the
`contributions <= 4000` branch applies at 4000 and yields
`round(140 + 14) = 154`. -/
theorem c2_counterexample : getBPMFromContributions 4000 ≠ 155 := by
  norm_num [getBPMFromContributions, jsRound]

/-- C2 (amended): the boundary values of the BPM curve, with
`bpm(4000) = 154` (the hardstyle tier still owns its right endpoint);
all other claimed values hold. -/
theorem c2_boundary_values :
    getBPMFromContributions 0 = 85 ∧ getBPMFromContributions 200 = 109 ∧
    getBPMFromContributions 800 = 127 ∧ getBPMFromContributions 2000 = 139 ∧
    getBPMFromContributions 4000 = 154 ∧ getBPMFromContributions 8000 = 180 ∧
    getBPMFromContributions 100000 = 180 := by
  refine ⟨?_, ?_, ?_, ?_, ?_, ?_, ?_⟩ <;>
    norm_num [getBPMFromContributions, jsRound, min_def]

/-- C3 counterexample: the claim asserts `bpm(50) = 97`, but
`round(85 + (50/200)*24) = round(91) = 91`. -/
theorem c3_counterexample : getBPMFromContributions 50 ≠ 97 := by
  norm_num [getBPMFromContributions, jsRound]

/-- C3 (amended): the end-to-end scenario table with `bpm(50) = 91`
(not 97) and `bpm(500) = 119` (the claimed "approximately 118", off by
exactly 1 because `round(118.5)` rounds up); genre and energy labels are
as claimed at every scenario point. -/
theorem c3_scenarios :
    getBPMFromContributions 50 = 91 ∧
    getGenreFromBPM (getBPMFromContributions 50) = MusicGenre.chillout ∧
    getEnergyLevel 50 = EnergyLevel.lurker ∧
    getBPMFromContributions 500 = 119 ∧
    getGenreFromBPM (getBPMFromContributions 500) = MusicGenre.techno ∧
    getEnergyLevel 500 = EnergyLevel.regular ∧
    getBPMFromContributions 1200 = 132 ∧
    getGenreFromBPM (getBPMFromContributions 1200) = MusicGenre.trance ∧
    getEnergyLevel 1200 = EnergyLevel.dedicated ∧
    getBPMFromContributions 3100 = 148 ∧
    getGenreFromBPM (getBPMFromContributions 3100) = MusicGenre.hardstyle ∧
    getEnergyLevel 3100 = EnergyLevel.machine ∧
    getBPMFromContributions 5000 = 161 ∧
    getGenreFromBPM (getBPMFromContributions 5000) = MusicGenre.hardcore ∧
    getEnergyLevel 5000 = EnergyLevel.legend := by
  have h50 : getBPMFromContributions 50 = 91 := by
    norm_num [getBPMFromContributions, jsRound]
  have h500 : getBPMFromContributions 500 = 119 := by
    norm_num [getBPMFromContributions, jsRound]
  have h1200 : getBPMFromContributions 1200 = 132 := by
    norm_num [getBPMFromContributions, jsRound]
  have h3100 : getBPMFromContributions 3100 = 148 := by
    norm_num [getBPMFromContributions, jsRound]
  have h5000 : getBPMFromContributions 5000 = 161 := by
    norm_num [getBPMFromContributions, jsRound, min_def]
  refine ⟨h50, ?_, by decide, h500, ?_, by decide, h1200, ?_, by decide,
    h3100, ?_, by decide, h5000, ?_, by decide⟩ <;>
    simp only [h50, h500, h1200, h3100, h5000] <;> decide

/-- C4: the BPM curve is monotonically non-decreasing on the non-negative
integers, and at each of the four tier boundaries the value just past the
boundary exceeds the boundary value by at most 1 BPM. -/
theorem c4_monotone :
    (∀ c1 c2 : ℤ, 0 ≤ c1 → c1 < c2 →
      getBPMFromContributions c1 ≤ getBPMFromContributions c2) ∧
    getBPMFromContributions 201 - getBPMFromContributions 200 ≤ 1 ∧
    getBPMFromContributions 801 - getBPMFromContributions 800 ≤ 1 ∧
    getBPMFromContributions 2001 - getBPMFromContributions 2000 ≤ 1 ∧
    getBPMFromContributions 4001 - getBPMFromContributions 4000 ≤ 1 := by
  refine ⟨fun c1 c2 _ h => getBPM_mono h.le, ?_, ?_, ?_, ?_⟩ <;>
    norm_num [getBPMFromContributions, jsRound, min_def]

/-- Witness for C4 at `c1 = 3 < c2 = 5`. -/
theorem c4_monotone_witness :
    getBPMFromContributions 3 ≤ getBPMFromContributions 5 :=
  c4_monotone.1 3 5 (by norm_num) (by norm_num)

/-- C5: for every non-negative contribution count the generated melody has
exactly 16 entries, each the rest value 0 or a strictly positive frequency;
the bassline has exactly 8 entries, all strictly positive frequencies; and
the root frequency is the `(c tmod 12)`-th entry of the 12-entry root-note
table. -/
theorem c5_patterns (c : ℤ) (h : 0 ≤ c) :
    (generateUniquePatterns c).melody.length = 16 ∧
    (∀ v ∈ (generateUniquePatterns c).melody,
      v = JSVal.num 0 ∨ ∃ x, v.toRealQ = some x ∧ 0 < x) ∧
    (generateUniquePatterns c).bassline.length = 8 ∧
    (∀ v ∈ (generateUniquePatterns c).bassline,
      ∃ x, v.toRealQ = some x ∧ 0 < x) ∧
    (generateUniquePatterns c).rootFreq = ROOT_NOTES.get? (c.tmod 12).toNat := by
  obtain ⟨h0, h12⟩ := tmod_bounds_of_nonneg h
  obtain ⟨r, hr, hrpos⟩ := rootNoteAt_pos h0 h12
  have hroot : (generateUniquePatterns c).rootFreq = some r :=
    (generateUniquePatterns_rootFreq c).trans hr
  obtain ⟨name, hscale⟩ := generateUniquePatterns_scale c
  have hs : (generateUniquePatterns c).scale ≠ [] :=
    hscale ▸ SCALES_ne_nil name
  refine ⟨generateUniquePatterns_melody_length c, ?_,
    generateUniquePatterns_bassline_length c, ?_, ?_⟩
  · intro v hv
    rcases generateUniquePatterns_melody_mem c v hv with h0v | ⟨d, o, hf⟩
    · exact Or.inl h0v
    · right
      rw [hroot] at hf
      obtain ⟨k, hk⟩ := getFrequency_note r _ hs d o
      rw [hk] at hf
      rw [hf]
      exact toRealQ_note_pos hrpos k
  · intro v hv
    obtain ⟨d, hf⟩ := generateUniquePatterns_bassline_mem c v hv
    rw [hroot] at hf
    obtain ⟨k, hk⟩ := getFrequency_note r _ hs d 0
    rw [hk] at hf
    rw [hf]
    exact toRealQ_note_pos hrpos k
  · rw [generateUniquePatterns_rootFreq]
    unfold rootNoteAt
    rw [if_neg (not_lt.2 h0)]

/-- Witness for C5 at `c = 5`. -/
theorem c5_patterns_witness :
    (generateUniquePatterns 5).melody.length = 16 ∧
    (∀ v ∈ (generateUniquePatterns 5).melody,
      v = JSVal.num 0 ∨ ∃ x, v.toRealQ = some x ∧ 0 < x) ∧
    (generateUniquePatterns 5).bassline.length = 8 ∧
    (∀ v ∈ (generateUniquePatterns 5).bassline,
      ∃ x, v.toRealQ = some x ∧ 0 < x) ∧
    (generateUniquePatterns 5).rootFreq =
      ROOT_NOTES.get? ((5 : ℤ).tmod 12).toNat :=
  c5_patterns 5 (by norm_num)

/-- C6 counterexample: immediately after construction the claimed invariant
fails — the constructor leaves the melody empty while the configured
contribution count (500) generates a 16-entry melody, so the stored
patterns are not the ones generated for the current configuration. -/
theorem c6_counterexample : ¬ genConsistent initState :=
  initState_not_genConsistent

/-- C6 (amended): in every state reachable from construction by any
sequence of operations, if the engine is playing then the stored melody,
bassline, root frequency and scale are exactly the ones
`generateUniquePatterns` produces for the current contributions value
(`play()` regenerates before starting the loop, `updateConfig`
regenerates on any contributions change, and the composers never touch
the generation fields); only non-playing states — in particular the
freshly constructed engine — may hold stale placeholder patterns. -/
theorem c6_invariant (ops : List Op)
    (h : (runOps initState ops).isPlaying = true) :
    genConsistent (runOps initState ops) :=
  runOps_inv ops initState (fun hp => Bool.noConfusion hp) h

/-- Witness for C6 with the one-operation sequence `[play]`. -/
theorem c6_invariant_witness :
    (runOps initState [Op.play]).isPlaying = true ∧
    genConsistent (runOps initState [Op.play]) := by
  have hp : (runOps initState [Op.play]).isPlaying = true :=
    (enginePlay_ctx_isPlaying initState rfl).2
  exact ⟨hp, c6_invariant [Op.play] hp⟩

/-- C7 counterexample: with `x` equal to the current contributions value
(here the constructor default 500), calling
`updateConfig({contributions: x})` regenerates zero times, not once: the
call is the identity on the engine state, and the stored patterns remain
the placeholder ones rather than the patterns generated for 500. -/
theorem c7_counterexample :
    engineUpdateConfig initState (some 500) none = initState ∧
    ¬ genConsistent initState :=
  ⟨engineUpdateConfig_same initState 500 rfl, initState_not_genConsistent⟩

/-- C7 (amended): `updateConfig` regenerates exactly when the supplied
contributions value differs from the current one.  A first call with a
differing `x` installs the patterns generated for `x`, and the second call
with the same `x` is a complete no-op; a call whose `x` equals the current
contributions (e.g. the constructor default) regenerates zero times; and a
streakDays-only update never changes the four generation fields. -/
theorem c7_update_frame :
    (∀ (s : EngineState) (x : ℤ), s.config.contributions ≠ x →
      genConsistent (engineUpdateConfig s (some x) none) ∧
      (engineUpdateConfig s (some x) none).config.contributions = x ∧
      engineUpdateConfig (engineUpdateConfig s (some x) none) (some x) none =
        engineUpdateConfig s (some x) none) ∧
    (∀ (s : EngineState) (x : ℤ), s.config.contributions = x →
      engineUpdateConfig s (some x) none = s) ∧
    (∀ (s : EngineState) (d : ℤ),
      (engineUpdateConfig s none (some d)).generatedMelody = s.generatedMelody ∧
      (engineUpdateConfig s none (some d)).generatedBassline =
        s.generatedBassline ∧
      (engineUpdateConfig s none (some d)).rootFreq = s.rootFreq ∧
      (engineUpdateConfig s none (some d)).scale = s.scale ∧
      (engineUpdateConfig s none (some d)).config.streakDays = d) := by
  refine ⟨?_, engineUpdateConfig_same, ?_⟩
  · intro s x hne
    have hreg : engineUpdateConfig s (some x) none = generateUniquePatternsS
        { s with config :=
          { contributions := x, streakDays := s.config.streakDays } } := by
      unfold engineUpdateConfig
      dsimp only
      rw [if_pos (Ne.symm hne)]
      rfl
    refine ⟨?_, ?_, ?_⟩
    · rw [hreg]
      exact genConsistent_genUPS _
    · rw [hreg]
      rfl
    · apply engineUpdateConfig_same
      rw [hreg]
      rfl
  · intro s d
    exact ⟨rfl, rfl, rfl, rfl, rfl⟩

/-- Witness for C7: a regenerating call at `x = 7` on the fresh engine, the
no-op call at the current value `x = 500`, and a streakDays-only update. -/
theorem c7_update_frame_witness :
    genConsistent (engineUpdateConfig initState (some 7) none) ∧
    engineUpdateConfig initState (some 500) none = initState ∧
    (engineUpdateConfig initState none (some 3)).generatedMelody =
      initState.generatedMelody :=
  ⟨(c7_update_frame.1 initState 7 (by decide)).1,
   c7_update_frame.2.1 initState 500 rfl,
   (c7_update_frame.2.2 initState 3).1⟩

/-- C8: the sound primitives are silent no-ops (the state is returned
unchanged, nothing is scheduled) whenever the audio context has not been
claimed; the stop traversal tolerates sound units that have already
finished (every `node.stop()` failure is caught), always completes, and
always clears the tracked list, leaving the engine stopped.  All engine
operations are total functions of the state: no operation throws. -/
theorem c8_no_throw :
    (∀ (s : EngineState) (freq : JSVal) (type : OscType) (st d v a r : ℚ),
      s.audioContextLive = false → createOscillator s freq type st d v a r = s) ∧
    (∀ (s : EngineState) (st v : ℚ) (hard : Bool),
      s.audioContextLive = false → createKick s st v hard = s) ∧
    (∀ (s : EngineState) (st v : ℚ) (o : Bool),
      s.audioContextLive = false → createHiHat s st v o = s) ∧
    (∀ (s : EngineState) (st v : ℚ),
      s.audioContextLive = false → createSnare s st v = s) ∧
    (∀ (s : EngineState) (f : JSVal) (st d v : ℚ),
      s.audioContextLive = false → createBass s f st d v = s) ∧
    (∀ (s : EngineState) (f : JSVal) (st d v : ℚ),
      s.audioContextLive = false → createPad s f st d v = s) ∧
    (∀ (s : EngineState) (f : JSVal) (st d v : ℚ),
      s.audioContextLive = false → createLead s f st d v = s) ∧
    (∀ ns : List ScheduledNode, tryStopAll ns = []) ∧
    (∀ s : EngineState, (engineStop s).isPlaying = false ∧
      (engineStop s).scheduledNodes = [] ∧
      (engineStop s).loopTimeoutArmed = false) := by
  refine ⟨?_, ?_, ?_, ?_, ?_, ?_, ?_, tryStopAll_eq_nil,
    fun s => ⟨engineStop_isPlaying s, engineStop_nodes s, engineStop_armed s⟩⟩
  · intro s freq type st d v a r h
    unfold createOscillator
    rw [if_pos (by simp [h])]
  · intro s st v hard h
    unfold createKick
    rw [if_pos (by simp [h])]
  · intro s st v o h
    unfold createHiHat
    rw [if_pos (by simp [h])]
  · intro s st v h
    unfold createSnare
    rw [if_pos (by simp [h])]
  · intro s f st d v h
    unfold createBass
    rw [if_pos (by simp [h])]
  · intro s f st d v h
    unfold createPad
    rw [if_pos (by simp [h])]
  · intro s f st d v h
    unfold createLead
    rw [if_pos (by simp [h])]

/-- Witness for C8: every primitive applied to the freshly constructed
engine (whose context is not yet claimed) returns it unchanged. -/
theorem c8_no_throw_witness :
    createOscillator initState (JSVal.num 440) OscType.sine 0 1 (1/10) (1/100)
      (1/10) = initState ∧
    createKick initState 0 (1/2) true = initState ∧
    createHiHat initState 0 (1/10) false = initState ∧
    createSnare initState 0 (1/2) = initState ∧
    createBass initState (JSVal.num 100) 0 1 (1/4) = initState ∧
    createPad initState (JSVal.num 200) 0 1 (1/10) = initState ∧
    createLead initState (JSVal.num 300) 0 1 (1/10) = initState :=
  ⟨c8_no_throw.1 initState _ _ _ _ _ _ _ rfl,
   c8_no_throw.2.1 initState _ _ _ rfl,
   c8_no_throw.2.2.1 initState _ _ _ rfl,
   c8_no_throw.2.2.2.1 initState _ _ rfl,
   c8_no_throw.2.2.2.2.1 initState _ _ _ _ rfl,
   c8_no_throw.2.2.2.2.2.1 initState _ _ _ _ rfl,
   c8_no_throw.2.2.2.2.2.2.1 initState _ _ _ _ rfl⟩

/-- C9 counterexample: `destroy()` is not terminal — running `destroy` and
then `play` on a fresh engine claims a new output device (`init()` sees the
nulled context and recreates it) and resumes playback. -/
theorem c9_counterexample :
    (runOps initState [Op.destroy, Op.play]).audioContextLive = true ∧
    (runOps initState [Op.destroy, Op.play]).isPlaying = true :=
  enginePlay_ctx_isPlaying (engineDestroy initState)
    (engineDestroy_isPlaying initState)

/-- C9 (amended): `destroy()` stops playback, cancels the pending loop,
clears the tracked nodes and releases the output device; but the engine is
not thereby made unusable: a subsequent `play()` on the same instance
claims a fresh output device and starts playing again. -/
theorem c9_destroy (s : EngineState) :
    (engineDestroy s).isPlaying = false ∧
    (engineDestroy s).audioContextLive = false ∧
    (engineDestroy s).scheduledNodes = [] ∧
    (engineDestroy s).loopTimeoutArmed = false ∧
    (enginePlay (engineDestroy s)).audioContextLive = true ∧
    (enginePlay (engineDestroy s)).isPlaying = true := by
  obtain ⟨h1, h2⟩ :=
    enginePlay_ctx_isPlaying (engineDestroy s) (engineDestroy_isPlaying s)
  exact ⟨engineDestroy_isPlaying s, engineDestroy_ctx s, engineDestroy_nodes s,
    engineDestroy_armed s, h1, h2⟩

/-- C10: for a negative contribution count not divisible by 12, the
JavaScript remainder is negative, the root-note lookup is undefined, every
pitched melody entry and every bassline entry is NaN (the rest slots of the
melody remain the literal 0), and the BPM function still returns the 85 BPM
floor for every non-positive count. -/
theorem c10_negative (c : ℤ) (hneg : c < 0) (hmod : c.tmod 12 ≠ 0) :
    c.tmod 12 < 0 ∧
    (generateUniquePatterns c).rootFreq = none ∧
    (∀ v ∈ (generateUniquePatterns c).melody,
      v = JSVal.num 0 ∨ v = JSVal.nan) ∧
    (∀ v ∈ (generateUniquePatterns c).bassline, v = JSVal.nan) ∧
    (∀ c2 : ℤ, c2 ≤ 0 → getBPMFromContributions c2 = 85) := by
  have hlt : c.tmod 12 < 0 :=
    lt_of_le_of_ne (tmod_nonpos_of_neg hneg) hmod
  have hroot : (generateUniquePatterns c).rootFreq = none := by
    rw [generateUniquePatterns_rootFreq, rootNoteAt_neg hlt]
  refine ⟨hlt, hroot, ?_, ?_, fun c2 h2 => bpm_of_nonpos h2⟩
  · intro v hv
    rcases generateUniquePatterns_melody_mem c v hv with h0v | ⟨d, o, hf⟩
    · exact Or.inl h0v
    · right
      rw [hroot] at hf
      rw [hf, getFrequency_of_none]
  · intro v hv
    obtain ⟨d, hf⟩ := generateUniquePatterns_bassline_mem c v hv
    rw [hroot] at hf
    rw [hf, getFrequency_of_none]

/-- Witness for C10 at `c = -5` (whose JavaScript remainder mod 12 is -5). -/
theorem c10_negative_witness :
    (-5 : ℤ).tmod 12 < 0 ∧
    (generateUniquePatterns (-5)).rootFreq = none ∧
    (∀ v ∈ (generateUniquePatterns (-5)).melody,
      v = JSVal.num 0 ∨ v = JSVal.nan) ∧
    (∀ v ∈ (generateUniquePatterns (-5)).bassline, v = JSVal.nan) ∧
    (∀ c2 : ℤ, c2 ≤ 0 → getBPMFromContributions c2 = 85) :=
  c10_negative (-5) (by decide) (by decide)
